import Mathlib

/-!
# Verification of the city street-network dataset pipeline

A shallow embedding of `src/dataset.py`: the identity-to-filename naming
scheme, the fetch-if-absent graph cache, the per-city metrics computation,
the aggregation into a `geoname_id`-indexed table, and its CSV persistence.

Python dynamic values are modelled by `PyVal`; Python dicts by insertion
-ordered association lists over `String` keys; the filesystem cache by a
list of `(filename, graph)` pairs; exceptions by `Except`/`Option`.
-/

set_option autoImplicit false

/-- A dynamically typed Python value, as far as the pipeline needs:
integers, floats (modelled exactly as rationals: the pipeline itself never
rounds), strings, and the two streets-per-node histogram dicts produced by
the stats collaborator. -/
inductive PyVal where
  | int (n : Int)
  | float (q : ℚ)
  | str (s : String)
  | histCounts (h : List (Nat × Nat))
  | histProps (h : List (Nat × ℚ))
deriving DecidableEq, Repr

/-- A Python dict with string keys: an insertion-ordered association list
whose keys are pairwise distinct in every dict the pipeline builds. -/
abbrev PyDict := List (String × PyVal)

/-- `d[k]` as an `Option` (Python: `d.get(k)`). -/
def dictGet : PyDict → String → Option PyVal
  | [], _ => none
  | e :: es, k => if e.1 = k then some e.2 else dictGet es k

/-- `d[k] = v`: update the entry in place if the key is present, else
append it (Python dict assignment preserves insertion order). -/
def dictSet : PyDict → String → PyVal → PyDict
  | [], k, v => [(k, v)]
  | e :: es, k, v => if e.1 = k then (k, v) :: es else e :: dictSet es k v

/-- `d.pop(k)`: remove the entry with key `k`.  (On the duplicate-free
dicts the pipeline builds this agrees with Python's `dict.pop`.) -/
def dictPop : PyDict → String → PyDict
  | [], _ => []
  | e :: es, k => if e.1 = k then dictPop es k else e :: dictPop es k

/-- `d.update(m)`: set every entry of `m` in `d`, in order. -/
def dictUpdate (d : PyDict) (m : PyDict) : PyDict :=
  m.foldl (fun acc e => dictSet acc e.1 e.2) d

@[simp] theorem dictGet_dictSet (d : PyDict) (k k' : String) (v : PyVal) :
    dictGet (dictSet d k v) k' = if k = k' then some v else dictGet d k' := by
  induction d with
  | nil => simp [dictSet, dictGet]
  | cons e es ih =>
    simp only [dictSet]
    by_cases h1 : e.1 = k
    · simp only [if_pos h1]
      by_cases h2 : k = k'
      · simp [dictGet, h2]
      · have h3 : ¬ e.1 = k' := fun hh => h2 (h1.symm.trans hh)
        simp [dictGet, h2, h3]
    · simp only [if_neg h1]
      by_cases h2 : e.1 = k'
      · have h3 : ¬ k = k' := fun hh => h1 (h2.trans hh.symm)
        simp [dictGet, h2, h3]
      · simp [dictGet, h2, ih]

@[simp] theorem dictGet_dictPop (d : PyDict) (k k' : String) :
    dictGet (dictPop d k) k' = if k = k' then none else dictGet d k' := by
  induction d with
  | nil => simp [dictPop, dictGet]
  | cons e es ih =>
    simp only [dictPop]
    by_cases h1 : e.1 = k
    · simp only [if_pos h1, ih]
      by_cases h2 : k = k'
      · simp [h2]
      · have h3 : ¬ e.1 = k' := fun hh => h2 (h1.symm.trans hh)
        simp [dictGet, h2, h3]
    · simp only [if_neg h1]
      by_cases h2 : e.1 = k'
      · have h3 : ¬ k = k' := fun hh => h1 (h2.trans hh.symm)
        simp [dictGet, h2, h3]
      · simp [dictGet, h2, ih]

theorem dictUpdate_cons (d : PyDict) (e : String × PyVal) (m : PyDict) :
    dictUpdate d (e :: m) = dictUpdate (dictSet d e.1 e.2) m := rfl

theorem dictUpdate_nil (d : PyDict) : dictUpdate d [] = d := rfl

/-! ## Strings and decimal rendering

Helpers for reasoning about the `_`-separated filename scheme:
`splitOnChar` models Python's `str.split("_")`, and the `Nat.toDigits`
lemmas show the decimal rendering of a `geoname_id` never contains the
separator. -/

/-- Python's `s.split(sep)` on a single-character separator, over the
character list of the string: `"" ↦ [""]`, `"a_b" ↦ ["a", "b"]`. -/
def splitOnChar (sep : Char) : List Char → List (List Char)
  | [] => [[]]
  | c :: cs =>
    let r := splitOnChar sep cs
    if c = sep then [] :: r
    else
      match r with
      | [] => [[c]]
      | h :: t => (c :: h) :: t

theorem splitOnChar_ne_nil (sep : Char) (cs : List Char) :
    splitOnChar sep cs ≠ [] := by
  cases cs with
  | nil => simp [splitOnChar]
  | cons c cs =>
    simp only [splitOnChar]
    split
    · simp
    · split <;> simp

theorem splitOnChar_of_not_mem (sep : Char) (cs : List Char) (h : sep ∉ cs) :
    splitOnChar sep cs = [cs] := by
  induction cs with
  | nil => rfl
  | cons c cs ih =>
    simp only [List.mem_cons, not_or] at h
    have hcs : ¬ c = sep := fun hc => h.1 hc.symm
    simp [splitOnChar, hcs, ih h.2]

theorem splitOnChar_append_sep (sep : Char) (cs rest : List Char)
    (h : sep ∉ cs) :
    splitOnChar sep (cs ++ sep :: rest) = cs :: splitOnChar sep rest := by
  induction cs with
  | nil => simp [splitOnChar]
  | cons c cs ih =>
    simp only [List.mem_cons, not_or] at h
    have hcs : ¬ c = sep := fun hc => h.1 hc.symm
    simp [splitOnChar, hcs, ih h.2]

theorem digitChar_isDigit (m : Nat) (h : m < 10) :
    (Nat.digitChar m).isDigit = true := by
  interval_cases m <;> decide

theorem toDigitsCore_isDigit (fuel : Nat) :
    ∀ (n : Nat) (ds : List Char), (∀ c ∈ ds, c.isDigit = true) →
      ∀ c ∈ Nat.toDigitsCore 10 fuel n ds, c.isDigit = true := by
  induction fuel with
  | zero => intro n ds hds c hc; exact hds c hc
  | succ fuel ih =>
    intro n ds hds c hc
    simp only [Nat.toDigitsCore] at hc
    have hmod : (Nat.digitChar (n % 10)).isDigit = true :=
      digitChar_isDigit _ (Nat.mod_lt _ (by norm_num))
    split at hc
    · rcases List.mem_cons.1 hc with h | h
      · exact h ▸ hmod
      · exact hds c h
    · refine ih _ _ ?_ c hc
      intro c' hc'
      rcases List.mem_cons.1 hc' with h | h
      · exact h ▸ hmod
      · exact hds c' h

theorem natRepr_isDigit (n : Nat) :
    ∀ c ∈ (Nat.repr n).data, c.isDigit = true := by
  intro c hc
  have : c ∈ Nat.toDigits 10 n := by
    simpa [Nat.repr, List.asString] using hc
  exact toDigitsCore_isDigit _ _ _ (by simp) c this

theorem sep_not_mem_natRepr (n : Nat) : '_' ∉ (Nat.repr n).data := by
  intro h
  have := natRepr_isDigit n _ h
  simp [Char.isDigit] at this

theorem strData_append (a b : String) : (a ++ b).data = a.data ++ b.data := by
  cases a; cases b; rfl

/-! ## Identity keys and the filename naming scheme

`write_city_graph` encodes the identity triple into the filename
`f"{geoname_id}_{name}_{country_code}.graphml"`;
`iterate_over_downloaded_cities_graphs` decodes a filename stem with
`stem.split("_")` into exactly three fields (a `ValueError`, modelled as
`none`, otherwise).  Per the data model, `geoname_id` is an integer in the
catalog row, while the decoded metadata fields are all strings. -/

/-- The identity triple of a city as the catalog holds it:
`geoname_id` an integer, `name` and `country_code` strings. -/
structure IdentityKey where
  geoname_id : Nat
  name : String
  country_code : String
deriving DecidableEq, Repr

/-- The metadata decoded from a filename stem: all three fields are
strings, exactly as `stem.split("_")` produces them. -/
structure CityMetadata where
  geoname_id : String
  name : String
  country_code : String
deriving DecidableEq, Repr

/-- The filename stem written by `write_city_graph`:
`f"{geoname_id}_{name}_{country_code}"`. -/
def encodeStem (k : IdentityKey) : String :=
  Nat.repr k.geoname_id ++ "_" ++ k.name ++ "_" ++ k.country_code

/-- The decoding done by `iterate_over_downloaded_cities_graphs`:
`geoname_id, name, country_code = stem.split("_")`; `none` models the
`ValueError` Python raises when the split is not exactly three fields. -/
def decodeStem (stem : String) : Option CityMetadata :=
  match splitOnChar '_' stem.data with
  | [g, n, c] => some ⟨String.mk g, String.mk n, String.mk c⟩
  | _ => none

/-- The row's identity fields as the Python values they are in the
catalog row: `geoname_id` an `int`, the other two `str`. -/
def identityPyDict (k : IdentityKey) : PyDict :=
  [("geoname_id", .int k.geoname_id),
   ("name", .str k.name),
   ("country_code", .str k.country_code)]

/-- The metadata dict literal yielded by
`iterate_over_downloaded_cities_graphs`: all three values are `str`. -/
def metadataPyDict (m : CityMetadata) : PyDict :=
  [("geoname_id", .str m.geoname_id),
   ("name", .str m.name),
   ("country_code", .str m.country_code)]

theorem encodeStem_data (k : IdentityKey) :
    (encodeStem k).data =
      (Nat.repr k.geoname_id).data ++ '_' :: (k.name.data ++ '_' :: k.country_code.data) := by
  simp [encodeStem, strData_append]

/-- C1 (amended): decoding the encoded stem of an `IdentityKey` whose
`name` and `country_code` contain no `'_'` succeeds and returns the
`name` and `country_code` unchanged, but the `geoname_id` comes back as
its decimal string rendering, not as the original integer. -/
theorem decodeStem_encodeStem (k : IdentityKey)
    (hn : '_' ∉ k.name.data) (hc : '_' ∉ k.country_code.data) :
    decodeStem (encodeStem k) =
      some ⟨Nat.repr k.geoname_id, k.name, k.country_code⟩ := by
  have hsplit : splitOnChar '_' (encodeStem k).data =
      [(Nat.repr k.geoname_id).data, k.name.data, k.country_code.data] := by
    rw [encodeStem_data,
      splitOnChar_append_sep _ _ _ (sep_not_mem_natRepr k.geoname_id),
      splitOnChar_append_sep _ _ _ hn,
      splitOnChar_of_not_mem _ _ hc]
  simp only [decodeStem, hsplit]

/-- C1 (counterexample): at the key `(42, "Foo", "US")` the decoded
metadata is `("42", "Foo", "US")` — the `geoname_id` is the string
`"42"`, so as a Python value the decoded key differs from the original
key, whose `geoname_id` is the integer `42`. -/
theorem decodeStem_encodeStem_type_mismatch :
    decodeStem (encodeStem ⟨42, "Foo", "US"⟩) = some ⟨"42", "Foo", "US"⟩ ∧
    metadataPyDict ⟨"42", "Foo", "US"⟩ ≠ identityPyDict ⟨42, "Foo", "US"⟩ := by
  constructor
  · rfl
  · decide

/-- C1 (witness): the amended round trip evaluated at `(42, "Foo", "US")`. -/
theorem decodeStem_encodeStem_witness :
    decodeStem (encodeStem ⟨42, "Foo", "US"⟩) = some ⟨"42", "Foo", "US"⟩ :=
  decodeStem_encodeStem ⟨42, "Foo", "US"⟩ (by decide) (by decide)

/-! ## The graph cache: `write_city_graph`

The cache directory is a list of `(filename, graph)` pairs; the graph
type is abstract.  `download_city_graph` (the external resolver) and
`osmnx.save_graphml` (the external serializer) are modelled by their
outcomes: a successful graph or a raised exception.  `write_city_graph`
checks `graph_path.exists()` first, and runs fetch-then-save under
`with suppress(ValueError)`. -/

/-- A Python exception, as far as `write_city_graph` distinguishes them:
`ValueError` (the resolver's resolution failure) versus anything else. -/
inductive PyExc where
  | valueError
  | other (name : String)
deriving DecidableEq, Repr

/-- A catalog row as `write_city_graph` reads it. -/
structure CityRecord where
  geoname_id : Nat
  name : String
  country_code : String
  population : Nat
deriving DecidableEq, Repr

/-- The artifact filename `f"{geoname_id}_{name}_{country_code}.graphml"`
derived from a row's identity. -/
def graphFileName (row : CityRecord) : String :=
  encodeStem ⟨row.geoname_id, row.name, row.country_code⟩ ++ ".graphml"

/-- The observable outcome of one `write_city_graph` call: the cache
afterwards, how many times the fetcher was invoked, and the exception
propagated to the caller, if any. -/
structure WriteOutcome (G : Type) where
  cache : List (String × G)
  fetchCalls : Nat
  error : Option PyExc
deriving DecidableEq, Repr

/-- `with suppress(ValueError)`: a `ValueError` is swallowed, any other
exception propagates. -/
def suppressValueError : PyExc → Option PyExc
  | .valueError => none
  | e => some e

/-- `write_city_graph(row)`: if the artifact path exists, do nothing;
otherwise call the fetcher and save the result, suppressing `ValueError`
from either step.  `fetch` is the outcome `download_city_graph(row)`
would have, `save` the outcome of `osmnx.save_graphml` on a given graph
(saving is atomic: a failed save leaves no artifact). -/
def write_city_graph {G : Type} (fetch : Except PyExc G)
    (save : G → Except PyExc Unit) (row : CityRecord)
    (cache : List (String × G)) : WriteOutcome G :=
  let path := graphFileName row
  if path ∈ cache.map Prod.fst then ⟨cache, 0, none⟩
  else
    match fetch with
    | .error e => ⟨cache, 1, suppressValueError e⟩
    | .ok g =>
      match save g with
      | .error e => ⟨cache, 1, suppressValueError e⟩
      | .ok _ => ⟨cache ++ [(path, g)], 1, none⟩

/-- C2: idempotent caching.  (a) If the artifact path already exists in
the cache, `write_city_graph` makes zero fetcher invocations, leaves the
cache unchanged and raises nothing.  (b) Starting from a cache without
the artifact, two successive calls with a fetcher and saver that succeed
make exactly one fetch call in total, the second call changes nothing,
and the final cache holds exactly one artifact at the derived path. -/
theorem write_city_graph_idempotent {G : Type} :
    (∀ (fetch : Except PyExc G) (save : G → Except PyExc Unit)
        (row : CityRecord) (cache : List (String × G)),
        graphFileName row ∈ cache.map Prod.fst →
        write_city_graph fetch save row cache = ⟨cache, 0, none⟩) ∧
    (∀ (g : G) (save : G → Except PyExc Unit) (row : CityRecord)
        (cache : List (String × G)),
        graphFileName row ∉ cache.map Prod.fst →
        save g = .ok () →
        (write_city_graph (.ok g) save row cache).fetchCalls +
          (write_city_graph (.ok g) save row
            (write_city_graph (.ok g) save row cache).cache).fetchCalls = 1 ∧
        (write_city_graph (.ok g) save row
            (write_city_graph (.ok g) save row cache).cache).cache =
          cache ++ [(graphFileName row, g)] ∧
        ((write_city_graph (.ok g) save row
            (write_city_graph (.ok g) save row cache).cache).cache.countP
          (fun e => decide (e.1 = graphFileName row))) = 1) := by
  constructor
  · intro fetch save row cache hmem
    simp [write_city_graph, hmem]
  · intro g save row cache hmem hsave
    have h1 : write_city_graph (.ok g) save row cache =
        ⟨cache ++ [(graphFileName row, g)], 1, none⟩ := by
      simp [write_city_graph, hmem, hsave]
    have hmem2 : graphFileName row ∈
        (cache ++ [(graphFileName row, g)]).map Prod.fst := by simp
    have h2 : write_city_graph (.ok g) save row
        (cache ++ [(graphFileName row, g)]) =
        ⟨cache ++ [(graphFileName row, g)], 0, none⟩ := by
      simp [write_city_graph, hmem2]
    rw [h1]
    simp only [h2]
    refine ⟨trivial, trivial, ?_⟩
    rw [List.countP_append]
    have hz : cache.countP (fun e => decide (e.1 = graphFileName row)) = 0 := by
      rw [List.countP_eq_zero]
      intro a ha
      simp only [decide_eq_true_eq]
      intro hfst
      exact hmem (hfst ▸ List.mem_map_of_mem Prod.fst ha)
    simp [hz]

/-- C2 (witness): both parts evaluated on a concrete row and cache. -/
theorem write_city_graph_idempotent_witness :
    (write_city_graph (G := Nat) (.ok 7) (fun _ => .ok ())
        ⟨1, "a", "b", 5⟩ [("1_a_b.graphml", 7)] =
      ⟨[("1_a_b.graphml", 7)], 0, none⟩) ∧
    ((write_city_graph (G := Nat) (.ok 7) (fun _ => .ok ())
        ⟨1, "a", "b", 5⟩ []).fetchCalls +
      (write_city_graph (.ok 7) (fun _ => .ok ()) ⟨1, "a", "b", 5⟩
        (write_city_graph (G := Nat) (.ok 7) (fun _ => .ok ())
          ⟨1, "a", "b", 5⟩ []).cache).fetchCalls = 1) := by
  constructor
  · exact (write_city_graph_idempotent (G := Nat)).1 _ _ _ _ (by decide)
  · exact ((write_city_graph_idempotent (G := Nat)).2 7 (fun _ => .ok ())
      ⟨1, "a", "b", 5⟩ [] (by decide) rfl).1

/-- C3: silent skip on resolution failure.  If the fetcher raises a
`ValueError` (the resolution failure class), `write_city_graph` leaves
the cache exactly as it was — in particular it creates no artifact at
the derived path — and propagates no error to its caller. -/
theorem write_city_graph_silent_skip {G : Type}
    (save : G → Except PyExc Unit) (row : CityRecord)
    (cache : List (String × G)) :
    (write_city_graph (.error .valueError) save row cache).cache = cache ∧
    (write_city_graph (.error .valueError) save row cache).error = none := by
  by_cases hmem : graphFileName row ∈ cache.map Prod.fst <;>
    simp [write_city_graph, hmem, suppressValueError]

/-- C10: only `ValueError` is suppressed.  When the artifact is not
already cached: a fetcher failure of any other exception type propagates
to the caller, a save failure of any other type propagates as well, and
a `ValueError` from either step is swallowed. -/
theorem write_city_graph_propagates_non_valueError {G : Type}
    (save : G → Except PyExc Unit) (row : CityRecord)
    (cache : List (String × G)) (g : G) (nm : String)
    (hmem : graphFileName row ∉ cache.map Prod.fst) :
    (write_city_graph (.error (.other nm)) save row cache).error =
      some (.other nm) ∧
    (save g = .error (.other nm) →
      (write_city_graph (.ok g) save row cache).error = some (.other nm)) ∧
    (write_city_graph (.error .valueError) save row cache).error = none ∧
    (save g = .error .valueError →
      (write_city_graph (.ok g) save row cache).error = none) := by
  refine ⟨?_, ?_, ?_, ?_⟩
  · simp [write_city_graph, hmem, suppressValueError]
  · intro hs; simp [write_city_graph, hmem, hs, suppressValueError]
  · simp [write_city_graph, hmem, suppressValueError]
  · intro hs; simp [write_city_graph, hmem, hs, suppressValueError]

/-- C10 (witness): propagation and suppression evaluated on a concrete
row with an empty cache. -/
theorem write_city_graph_propagates_witness :
    (write_city_graph (G := Nat) (.error (.other "OSError"))
        (fun _ => .ok ()) ⟨1, "a", "b", 5⟩ []).error =
      some (.other "OSError") ∧
    (write_city_graph (G := Nat) (.ok 7)
        (fun _ => .error (.other "OSError")) ⟨1, "a", "b", 5⟩ []).error =
      some (.other "OSError") := by
  have h := write_city_graph_propagates_non_valueError
    (G := Nat) (fun _ => .error (.other "OSError")) ⟨1, "a", "b", 5⟩ [] 7
    "OSError" (by decide)
  have h' := write_city_graph_propagates_non_valueError
    (G := Nat) (fun _ => .ok ()) ⟨1, "a", "b", 5⟩ [] 7
    "OSError" (by decide)
  exact ⟨h'.1, h.2.1 rfl⟩

/-- C3 (witness): the silent skip evaluated on a concrete row with an
empty cache.  (The C3 theorem has no hypotheses; stated for evaluation.) -/
theorem write_city_graph_silent_skip_witness :
    (write_city_graph (G := Nat) (.error .valueError) (fun _ => .ok ())
        ⟨1, "a", "b", 5⟩ []).cache = [] ∧
    (write_city_graph (G := Nat) (.error .valueError) (fun _ => .ok ())
        ⟨1, "a", "b", 5⟩ []).error = none :=
  write_city_graph_silent_skip (fun _ => .ok ()) ⟨1, "a", "b", 5⟩ []

/-! ## Iterating over the cached graphs

`iterate_over_downloaded_cities_graphs` scans the cache directory with
`glob("*.graphml")`, decodes each stem, and yields
`(loaded graph, metadata dict)` pairs.  The directory is a list of file
names in enumeration order; `osmnx.load_graphml` is an abstract function
from file name to graph.  A stem that does not split into exactly three
fields raises `ValueError` at that point of the iteration, after the
earlier pairs have been yielded. -/

/-- Whether `p` is a leading sub-list of `l`. -/
def listStartsWith {α : Type} [DecidableEq α] : List α → List α → Bool
  | [], _ => true
  | _ :: _, [] => false
  | p :: ps, c :: cs => p = c && listStartsWith ps cs

/-- `s.endswith(suffix)`, via reversed character lists. -/
def endsWithStr (s suffix : String) : Bool :=
  listStartsWith suffix.data.reverse s.data.reverse

/-- `Path(f).stem` for a file matched by `glob("*.graphml")`: the name
with the final `".graphml"` (8 characters) removed. -/
def stemOfGraphml (f : String) : String :=
  String.mk (f.data.take (f.data.length - 8))

/-- What iterating the cache produces: either every pair, or the pairs
yielded before a `ValueError` was raised on the named file. -/
inductive IterOutcome (G : Type) where
  | ok (pairs : List (G × CityMetadata))
  | valueErrorAt (pairs : List (G × CityMetadata)) (file : String)
deriving DecidableEq, Repr

/-- The generator body: decode each matched file's stem and yield the
loaded graph with the metadata; stop with a `ValueError` at the first
stem that does not split into exactly three fields. -/
def iterGraphsGo {G : Type} (loadG : String → G) :
    List String → IterOutcome G
  | [] => .ok []
  | f :: rest =>
    match decodeStem (stemOfGraphml f) with
    | some md =>
      match iterGraphsGo loadG rest with
      | .ok ps => .ok ((loadG f, md) :: ps)
      | .valueErrorAt ps bad => .valueErrorAt ((loadG f, md) :: ps) bad
    | none => .valueErrorAt [] f

/-- `iterate_over_downloaded_cities_graphs`: glob the directory for
`*.graphml` files and decode each stem, yielding graph/metadata pairs. -/
def iterate_over_downloaded_cities_graphs {G : Type} (loadG : String → G)
    (files : List String) : IterOutcome G :=
  iterGraphsGo loadG (files.filter (fun f => endsWithStr f ".graphml"))

/-- The pairs produced by the files whose stems decode. -/
def pairsOfFiles {G : Type} (loadG : String → G) (fs : List String) :
    List (G × CityMetadata) :=
  fs.filterMap (fun f => (decodeStem (stemOfGraphml f)).map
    (fun md => (loadG f, md)))

/-- C9: malformed filename behaviour.  If the globbed `.graphml` files
are `pre ++ bad :: post` where every stem in `pre` decodes and `bad`'s
stem does not split into exactly three `_`-separated fields, the
iteration raises `ValueError` at `bad`: it yields exactly the pairs of
`pre`, does not skip `bad`, and yields nothing from `post`. -/
theorem iterate_valueError_at_malformed {G : Type} (loadG : String → G)
    (files pre post : List String) (bad : String)
    (hsplit : files.filter (fun f => endsWithStr f ".graphml") =
      pre ++ bad :: post)
    (hpre : ∀ f ∈ pre, (decodeStem (stemOfGraphml f)).isSome)
    (hbad : decodeStem (stemOfGraphml bad) = none) :
    iterate_over_downloaded_cities_graphs loadG files =
      .valueErrorAt (pairsOfFiles loadG pre) bad := by
  unfold iterate_over_downloaded_cities_graphs
  rw [hsplit]
  clear hsplit
  induction pre with
  | nil => simp [iterGraphsGo, hbad, pairsOfFiles]
  | cons f pre ih =>
    obtain ⟨md, hmd⟩ := Option.isSome_iff_exists.1 (hpre f (by simp))
    have ihres := ih (fun f' hf' => hpre f' (by simp [hf']))
    simp only [List.cons_append, iterGraphsGo, hmd, List.append_eq, ihres,
      pairsOfFiles, List.filterMap_cons, Option.map_some']

/-- C9 (witness): a cache holding one well-formed file and one malformed
file: iteration yields the first pair, then raises at the malformed
file. -/
theorem iterate_valueError_at_malformed_witness :
    iterate_over_downloaded_cities_graphs (fun _ => (0 : Nat))
        ["1_a_b.graphml", "nosep.graphml", "2_c_d.graphml"] =
      .valueErrorAt [(0, ⟨"1", "a", "b"⟩)] "nosep.graphml" := by
  have h := iterate_valueError_at_malformed (fun _ => (0 : Nat))
    ["1_a_b.graphml", "nosep.graphml", "2_c_d.graphml"]
    ["1_a_b.graphml"] ["2_c_d.graphml"] "nosep.graphml"
    (by decide) (by decide) (by decide)
  exact h

/-! ## The city catalog filter -/

/-- `get_cities_with_population(from_population, to_population)`: the
boolean-mask filter
`dataset[(dataset["population"] >= from) & (dataset["population"] <= to)]`
over an in-memory snapshot of the catalog. -/
def get_cities_with_population (dataset : List CityRecord)
    (from_population to_population : Nat) : List CityRecord :=
  dataset.filter (fun r =>
    decide (from_population ≤ r.population) &&
    decide (r.population ≤ to_population))

/-- C5: the population filter returns exactly the records whose
population lies in the inclusive band, and the result is a sublist of
the full catalog — no record is invented or modified. -/
theorem get_cities_with_population_correct (dataset : List CityRecord)
    (from_population to_population : Nat) :
    (get_cities_with_population dataset from_population to_population).Sublist
        dataset ∧
    ∀ r : CityRecord,
      r ∈ get_cities_with_population dataset from_population to_population ↔
        (r ∈ dataset ∧ from_population ≤ r.population ∧
          r.population ≤ to_population) := by
  refine ⟨List.filter_sublist dataset, fun r => ?_⟩
  simp [get_cities_with_population, List.mem_filter, and_assoc]

/-! ## Metrics computation: `calculate_metrics_for_city_graph`

The graph projection, the convex-hull area and `osmnx.basic_stats` are
external collaborators.  The projection and the hull area are abstract
functions; the stats output schema is part of the contract and is
modelled from the spec. -/

/-- A planar node position. -/
abbrev Pos := ℚ × ℚ

/-- A street-network graph: nodes with identifiers and positions, and
street segments as node-id pairs. -/
structure MGraph where
  nodes : List (Nat × Pos)
  edges : List (Nat × Nat)
deriving DecidableEq, Repr

/-- `osmnx.project_graph`: maps the node coordinates into a planar frame
suitable for measurement, preserving the graph structure. -/
def projectGraph (proj : Pos → Pos) (g : MGraph) : MGraph :=
  { nodes := g.nodes.map (fun nd => (nd.1, proj nd.2)), edges := g.edges }

/-- Modelled from the spec: the per-node "streets incident" degree —
the count of street segments incident to the node (§4.4 step 3). -/
def streetDegree (g : MGraph) (v : Nat) : Nat :=
  (g.edges.filter (fun e => decide (e.1 = v) || decide (e.2 = v))).length

/-- The street degrees of all nodes, in node order. -/
def streetDegreeList (g : MGraph) : List Nat :=
  g.nodes.map (fun nd => streetDegree g nd.1)

/-- The distinct values of a list, keeping first occurrences (the key
order of a Python `Counter`). -/
def dedupFirst : List Nat → List Nat
  | [] => []
  | k :: ks => k :: (dedupFirst ks).filter (fun k' => decide (k' ≠ k))

/-- Modelled from the spec: the `streets_per_node_counts` histogram —
for each observed degree `k`, the number of intersections with exactly
`k` incident streets. -/
def spnCounts (g : MGraph) : List (Nat × Nat) :=
  (dedupFirst (streetDegreeList g)).map
    (fun k => (k, (streetDegreeList g).count k))

/-- Modelled from the spec: the `streets_per_node_proportions` histogram
— the proportion of intersections with exactly `k` incident streets. -/
def spnProps (g : MGraph) : List (Nat × ℚ) :=
  (dedupFirst (streetDegreeList g)).map
    (fun k => (k, ((streetDegreeList g).count k : ℚ) / (g.nodes.length : ℚ)))

/-- Modelled from the spec: the `osmnx.basic_stats` output schema as far
as the contract fixes it (§4.4 step 3): node count `n`, edge count `m`,
and the two streets-per-node histogram fields.  The further descriptive
scalar statistics it emits play no role in any claim and are omitted. -/
def basic_stats (g : MGraph) : PyDict :=
  [("n", .int g.nodes.length),
   ("m", .int g.edges.length),
   ("streets_per_node_counts", .histCounts (spnCounts g)),
   ("streets_per_node_proportions", .histProps (spnProps g))]

/-- `calculate_metrics_for_city_graph(graph, metadata)`, line by line
from the source: project the graph; take the convex-hull area of the
projected nodes; compute the basic stats; emit a
`f"{k}_way_int_count"` column per counts entry and a
`f"{k}_way_int_prop"` column per proportions entry; pop the two raw
histogram fields; set `area`; merge the metadata into the record. -/
def calculate_metrics_for_city_graph (proj : Pos → Pos)
    (hull : List Pos → ℚ) (graph : MGraph) (metadata : PyDict) : PyDict :=
  let graph_projection := projectGraph proj graph
  let graph_area_m := hull (graph_projection.nodes.map Prod.snd)
  let stats := basic_stats graph_projection
  let counts := match dictGet stats "streets_per_node_counts" with
    | some (.histCounts h) => h
    | _ => []
  let props := match dictGet stats "streets_per_node_proportions" with
    | some (.histProps h) => h
    | _ => []
  let stats := counts.foldl
    (fun s kc => dictSet s (Nat.repr kc.1 ++ "_way_int_count") (.int kc.2))
    stats
  let stats := props.foldl
    (fun s kp => dictSet s (Nat.repr kp.1 ++ "_way_int_prop") (.float kp.2))
    stats
  let stats := dictPop stats "streets_per_node_counts"
  let stats := dictPop stats "streets_per_node_proportions"
  let stats := dictSet stats "area" (.float graph_area_m)
  dictUpdate stats metadata

/-- C8: for every graph and every supplied identity metadata values, the
metrics record contains neither raw histogram field and carries the
three identity fields with exactly the supplied values. -/
theorem calculate_metrics_shape (proj : Pos → Pos) (hull : List Pos → ℚ)
    (graph : MGraph) (v1 v2 v3 : PyVal) :
    dictGet (calculate_metrics_for_city_graph proj hull graph
        [("geoname_id", v1), ("name", v2), ("country_code", v3)])
      "streets_per_node_counts" = none ∧
    dictGet (calculate_metrics_for_city_graph proj hull graph
        [("geoname_id", v1), ("name", v2), ("country_code", v3)])
      "streets_per_node_proportions" = none ∧
    dictGet (calculate_metrics_for_city_graph proj hull graph
        [("geoname_id", v1), ("name", v2), ("country_code", v3)])
      "geoname_id" = some v1 ∧
    dictGet (calculate_metrics_for_city_graph proj hull graph
        [("geoname_id", v1), ("name", v2), ("country_code", v3)])
      "name" = some v2 ∧
    dictGet (calculate_metrics_for_city_graph proj hull graph
        [("geoname_id", v1), ("name", v2), ("country_code", v3)])
      "country_code" = some v3 := by
  simp only [calculate_metrics_for_city_graph, dictUpdate, List.foldl_cons,
    List.foldl_nil]
  refine ⟨?_, ?_, ?_, ?_, ?_⟩ <;> simp

/-- The synthetic 4-node simple cycle: unit-square positions, 4 edges,
every node of street degree 2. -/
def cycleGraph4 : MGraph :=
  { nodes := [(0, ((0 : ℚ), (0 : ℚ))), (1, (1, 0)), (2, (1, 1)), (3, (0, 1))],
    edges := [(0, 1), (1, 2), (2, 3), (3, 0)] }

/-- Concrete identity metadata for the synthetic city. -/
def cycleMetadata : PyDict :=
  [("geoname_id", .str "42"), ("name", .str "Foo"),
   ("country_code", .str "US")]

/-- Whether a column name contains the substring `"_way_int_"`, i.e.
matches the `*_way_int_*` column families. -/
def isWayIntColumn (s : String) : Bool :=
  s.data.tails.any (fun t => listStartsWith "_way_int_".data t)

set_option maxHeartbeats 1000000 in
theorem calc_cycle4_eq (proj : Pos → Pos) (hull : List Pos → ℚ) :
    calculate_metrics_for_city_graph proj hull cycleGraph4 cycleMetadata =
      [("n", .int 4), ("m", .int 4),
       ("2_way_int_count", .int 4),
       ("2_way_int_prop", .float 1),
       ("area", .float (hull [proj (0, 0), proj (1, 0), proj (1, 1),
         proj (0, 1)])),
       ("geoname_id", .str "42"), ("name", .str "Foo"),
       ("country_code", .str "US")] := by
  have h1 : calculate_metrics_for_city_graph proj hull cycleGraph4
      cycleMetadata =
      [("n", .int 4), ("m", .int 4),
       ("2_way_int_count", .int 4),
       ("2_way_int_prop", .float ((4 : ℚ) / (4 : ℚ))),
       ("area", .float (hull [proj (0, 0), proj (1, 0), proj (1, 1),
         proj (0, 1)])),
       ("geoname_id", .str "42"), ("name", .str "Foo"),
       ("country_code", .str "US")] := by
    simp only [calculate_metrics_for_city_graph]
    rw [show basic_stats (projectGraph proj cycleGraph4) =
      [("n", .int 4), ("m", .int 4),
       ("streets_per_node_counts", .histCounts [(2, 4)]),
       ("streets_per_node_proportions",
        .histProps [(2, (4 : ℚ) / (4 : ℚ))])] from rfl]
    rw [show (projectGraph proj cycleGraph4).nodes.map Prod.snd =
      [proj (0, 0), proj (1, 0), proj (1, 1), proj (0, 1)] from rfl]
    simp only [dictGet, dictSet, dictPop, dictUpdate, List.foldl,
      show Nat.repr 2 ++ "_way_int_count" = "2_way_int_count" from rfl,
      show Nat.repr 2 ++ "_way_int_prop" = "2_way_int_prop" from rfl]
    simp
  rw [h1, show ((4 : ℚ) / (4 : ℚ)) = 1 by norm_num]

/-- C7: on the synthetic 4-cycle the metrics record has node count 4,
edge count 4, a `2_way_int_count` of 4, a `2_way_int_prop` of 1, no
other `*_way_int_*` column, and `area` equal to the hull area of the 4
projected node positions. -/
theorem calculate_metrics_cycle4 (proj : Pos → Pos) (hull : List Pos → ℚ) :
    dictGet (calculate_metrics_for_city_graph proj hull cycleGraph4
      cycleMetadata) "n" = some (.int 4) ∧
    dictGet (calculate_metrics_for_city_graph proj hull cycleGraph4
      cycleMetadata) "m" = some (.int 4) ∧
    dictGet (calculate_metrics_for_city_graph proj hull cycleGraph4
      cycleMetadata) "2_way_int_count" = some (.int 4) ∧
    dictGet (calculate_metrics_for_city_graph proj hull cycleGraph4
      cycleMetadata) "2_way_int_prop" = some (.float 1) ∧
    (∀ s ∈ (calculate_metrics_for_city_graph proj hull cycleGraph4
        cycleMetadata).map Prod.fst,
      isWayIntColumn s = true →
        s = "2_way_int_count" ∨ s = "2_way_int_prop") ∧
    dictGet (calculate_metrics_for_city_graph proj hull cycleGraph4
      cycleMetadata) "area" =
      some (.float (hull ((projectGraph proj cycleGraph4).nodes.map
        Prod.snd))) := by
  rw [calc_cycle4_eq]
  have hmap : List.map Prod.fst
      ([("n", PyVal.int 4), ("m", PyVal.int 4),
        ("2_way_int_count", PyVal.int 4),
        ("2_way_int_prop", PyVal.float 1),
        ("area", PyVal.float (hull [proj (0, 0), proj (1, 0), proj (1, 1),
          proj (0, 1)])),
        ("geoname_id", PyVal.str "42"), ("name", PyVal.str "Foo"),
        ("country_code", PyVal.str "US")] : PyDict) =
      ["n", "m", "2_way_int_count", "2_way_int_prop", "area",
       "geoname_id", "name", "country_code"] := rfl
  refine ⟨rfl, rfl, rfl, rfl, ?_, rfl⟩
  rw [hmap]
  decide

/-! ## Aggregation: `create_stats_df_for_downloaded_cities_graphs` -/

/-- The aggregate table, `pd.DataFrame(stats).set_index("geoname_id")`:
the index holds each record's `geoname_id` column value, in record
order. -/
structure StatsTable where
  index : List PyVal
  records : List PyDict
deriving DecidableEq, Repr

/-- Build the aggregate table: compute the metrics record for every
cached `(graph, metadata)` pair, then index by the `geoname_id` column.
`none` models the `ValueError` escaping from the iteration on a
malformed filename.  (`set_index` would raise `KeyError` on a record
without the column; every computed record has it, so the `getD` default
is never taken.) -/
def create_stats_df_for_downloaded_cities_graphs (proj : Pos → Pos)
    (hull : List Pos → ℚ) (loadG : String → MGraph) (files : List String) :
    Option StatsTable :=
  match iterate_over_downloaded_cities_graphs loadG files with
  | .ok pairs =>
    let recs := pairs.map (fun pr =>
      calculate_metrics_for_city_graph proj hull pr.1 (metadataPyDict pr.2))
    some ⟨recs.map (fun r => (dictGet r "geoname_id").getD (.str "")), recs⟩
  | .valueErrorAt _ _ => none

theorem calculate_metrics_geoname_id (proj : Pos → Pos)
    (hull : List Pos → ℚ) (graph : MGraph) (m : CityMetadata) :
    (dictGet (calculate_metrics_for_city_graph proj hull graph
        (metadataPyDict m)) "geoname_id").getD (.str "") =
      .str m.geoname_id := by
  simp only [calculate_metrics_for_city_graph, metadataPyDict, dictUpdate,
    List.foldl_cons, List.foldl_nil]
  simp

/-- C6 (amended): when every cached filename decodes and the decoded
`geoname_id`s are pairwise distinct, the built table has exactly one
record per distinct `geoname_id` present in the cache and its index is
unique.  (Without the distinctness hypothesis the claim fails: see the
counterexample.) -/
theorem create_stats_df_unique_index (proj : Pos → Pos)
    (hull : List Pos → ℚ) (loadG : String → MGraph) (files : List String)
    (pairs : List (MGraph × CityMetadata))
    (hok : iterate_over_downloaded_cities_graphs loadG files = .ok pairs)
    (hnd : (pairs.map (fun pr => pr.2.geoname_id)).Nodup) :
    ∃ t, create_stats_df_for_downloaded_cities_graphs proj hull loadG files
        = some t ∧
      t.index = pairs.map (fun pr => PyVal.str pr.2.geoname_id) ∧
      t.index.Nodup ∧
      t.records.length = pairs.length ∧
      ∀ g ∈ pairs.map (fun pr => pr.2.geoname_id),
        t.index.count (PyVal.str g) = 1 := by
  have hidx : (pairs.map (fun pr =>
      calculate_metrics_for_city_graph proj hull pr.1
        (metadataPyDict pr.2))).map
      (fun r => (dictGet r "geoname_id").getD (.str "")) =
      pairs.map (fun pr => PyVal.str pr.2.geoname_id) := by
    rw [List.map_map]
    exact List.map_congr_left (fun pr _ =>
      calculate_metrics_geoname_id proj hull pr.1 pr.2)
  have hstr : Function.Injective PyVal.str := fun a b h => by
    injection h
  have hndidx : (pairs.map (fun pr => PyVal.str pr.2.geoname_id)).Nodup := by
    have heq : pairs.map (fun pr => PyVal.str pr.2.geoname_id) =
        (pairs.map (fun pr => pr.2.geoname_id)).map PyVal.str := by
      rw [List.map_map]; rfl
    rw [heq]
    exact hnd.map hstr
  have hcreate : create_stats_df_for_downloaded_cities_graphs proj hull loadG
      files = some
      ⟨(pairs.map (fun pr => calculate_metrics_for_city_graph proj hull pr.1
          (metadataPyDict pr.2))).map
        (fun r => (dictGet r "geoname_id").getD (.str "")),
       pairs.map (fun pr => calculate_metrics_for_city_graph proj hull pr.1
          (metadataPyDict pr.2))⟩ := by
    simp only [create_stats_df_for_downloaded_cities_graphs, hok]
  refine ⟨_, hcreate, ?_, ?_, ?_, ?_⟩
  · exact hidx
  · show (List.map _ _).Nodup
    rw [hidx]; exact hndidx
  · simp
  · intro g hg
    show List.count _ (List.map _ _) = 1
    rw [hidx]
    refine List.count_eq_one_of_mem hndidx ?_
    obtain ⟨pr, hpr, rfl⟩ := List.mem_map.1 hg
    exact List.mem_map_of_mem _ hpr

/-- C6 (counterexample): a cache directory holding two well-formed
`.graphml` files that decode to the same `geoname_id` — the built table
has two records for the single distinct `geoname_id` `"42"` and its
index is not unique. -/
theorem create_stats_df_duplicate_gid :
    ((create_stats_df_for_downloaded_cities_graphs id (fun _ => 0)
        (fun _ => ⟨[], []⟩)
        ["42_Foo_US.graphml", "42_Bar_US.graphml"]).map
      StatsTable.index) = some [.str "42", .str "42"] ∧
    ((create_stats_df_for_downloaded_cities_graphs id (fun _ => 0)
        (fun _ => ⟨[], []⟩)
        ["42_Foo_US.graphml", "42_Bar_US.graphml"]).map
      (fun t => decide t.index.Nodup)) = some false := by
  constructor <;> decide

/-- C6 (witness): the amended statement evaluated on a two-file cache
with distinct `geoname_id`s. -/
theorem create_stats_df_unique_index_witness :
    ∃ t, create_stats_df_for_downloaded_cities_graphs id (fun _ => 0)
        (fun _ => ⟨[], []⟩) ["1_a_b.graphml", "2_c_d.graphml"] = some t ∧
      t.index = [PyVal.str "1", PyVal.str "2"] ∧
      t.index.Nodup ∧
      t.records.length = 2 ∧
      ∀ g ∈ ["1", "2"], t.index.count (PyVal.str g) = 1 :=
  create_stats_df_unique_index id (fun _ => 0) (fun _ => ⟨[], []⟩)
    ["1_a_b.graphml", "2_c_d.graphml"]
    [(⟨[], []⟩, ⟨"1", "a", "b"⟩), (⟨[], []⟩, ⟨"2", "c", "d"⟩)]
    (by decide) (by decide)

/-- C7 (witness): the 4-cycle metrics evaluated at a concrete projection
and hull-area function. -/
theorem calculate_metrics_cycle4_witness :
    dictGet (calculate_metrics_for_city_graph id (fun _ => (9 : ℚ))
      cycleGraph4 cycleMetadata) "n" = some (.int 4) ∧
    dictGet (calculate_metrics_for_city_graph id (fun _ => (9 : ℚ))
      cycleGraph4 cycleMetadata) "2_way_int_prop" = some (.float 1) ∧
    dictGet (calculate_metrics_for_city_graph id (fun _ => (9 : ℚ))
      cycleGraph4 cycleMetadata) "area" = some (.float 9) :=
  ⟨(calculate_metrics_cycle4 id (fun _ => 9)).1,
   (calculate_metrics_cycle4 id (fun _ => 9)).2.2.2.1,
   (calculate_metrics_cycle4 id (fun _ => 9)).2.2.2.2.2⟩

/-! ## Persistence: `save_...` (`to_csv`) and `load_processed_dataset`
(`read_csv`)

Modelled from the spec: `persist` "writes the table to a stable,
schema-labeled tabular file, with `geoname_id` as the row key" and
`load` "reads the persisted table back, reconstructing `geoname_id` as
the row key".  The storage format (CSV) is untyped text: every cell is
written as its text rendering, and the reader re-infers each cell's type
from that text — a cell consisting of decimal digits (with an optional
leading minus) is read back as an integer, anything else as a string.
Cells are integers and strings here; float cells round-trip through
their shortest decimal rendering and are covered by the claim's "up to
the storage format's numeric precision" hedge. -/

/-- A table cell as the storage layer sees it. -/
inductive Cell where
  | int (n : Int)
  | str (s : String)
deriving DecidableEq, Repr

/-- The aggregate table at the persistence boundary: the `geoname_id`
index column, the remaining column names, and one cell row per record. -/
structure StatsDF where
  index : List Cell
  columns : List String
  rows : List (List Cell)
deriving DecidableEq, Repr

/-- Write one cell as CSV text. -/
def serializeCell : Cell → String
  | .int n => toString n
  | .str s => s

/-- Whether a CSV field reads back as an integer: an optional leading
`'-'` followed by one or more decimal digits. -/
def isIntString (s : String) : Bool :=
  match s.data with
  | [] => false
  | c :: cs =>
    if c = '-' then !cs.isEmpty && cs.all (fun ch => ch.isDigit)
    else (c :: cs).all (fun ch => ch.isDigit)

/-- The numeric value of a digit string. -/
def parseDigits (cs : List Char) : Nat :=
  cs.foldl (fun a c => 10 * a + (c.toNat - '0'.toNat)) 0

/-- The integer value of a field accepted by `isIntString`. -/
def parseIntString (s : String) : Int :=
  match s.data with
  | '-' :: cs => -(parseDigits cs : Int)
  | cs => (parseDigits cs : Int)

/-- Read one CSV field back, re-inferring its type from the text. -/
def parseCell (s : String) : Cell :=
  if isIntString s then .int (parseIntString s) else .str s

/-- `save_stats_df_for_downloaded_cities_graphs(stats_df)`:
`stats_df.to_csv(...)` — a header row naming the index column
`geoname_id` first, then one row per record with the serialized index
cell first. -/
def save_stats_df_for_downloaded_cities_graphs (t : StatsDF) :
    List (List String) :=
  ("geoname_id" :: t.columns) ::
    (t.index.zip t.rows).map
      (fun p => serializeCell p.1 :: p.2.map serializeCell)

/-- `load_processed_dataset()`: `pd.read_csv(..., index_col="geoname_id")`
— take the header, use the `geoname_id` column (written first by
`save`) as the index, and re-infer every cell's type from its text. -/
def load_processed_dataset (csv : List (List String)) : Option StatsDF :=
  match csv with
  | [] => none
  | header :: body =>
    match header with
    | idx :: cols =>
      if idx = "geoname_id" then
        some ⟨body.map (fun r => parseCell (r.headD "")), cols,
              body.map (fun r => r.tail.map parseCell)⟩
      else none
    | [] => none

theorem parse_serialize_rows (xs : List Cell) (rs : List (List Cell))
    (hlen : xs.length = rs.length)
    (hcells : ∀ r ∈ rs, ∀ c ∈ r, parseCell (serializeCell c) = c) :
    ((xs.zip rs).map
        (fun p => serializeCell p.1 :: p.2.map serializeCell)).map
        (fun r => parseCell (r.headD "")) =
      xs.map (fun c => parseCell (serializeCell c)) ∧
    ((xs.zip rs).map
        (fun p => serializeCell p.1 :: p.2.map serializeCell)).map
        (fun r => r.tail.map parseCell) = rs := by
  induction xs generalizing rs with
  | nil =>
    cases rs with
    | nil => simp
    | cons r rs => simp at hlen
  | cons x xs ih =>
    cases rs with
    | nil => simp at hlen
    | cons r rs =>
      have hr : (r.map serializeCell).map parseCell = r := by
        rw [List.map_map]
        have := hcells r (by simp)
        calc r.map (parseCell ∘ serializeCell)
            = r.map id := List.map_congr_left (fun c hc => this c hc)
          _ = r := List.map_id r
      have ihres := ih rs (by simpa using hlen)
        (fun r' hr' => hcells r' (by simp [hr']))
      simp only [List.zip_cons_cons, List.map_cons, List.headD_cons,
        List.tail_cons, ihres.1, ihres.2, hr]
      exact ⟨trivial, trivial⟩

/-- C4 (amended): loading a persisted table returns the columns and the
row cells unchanged (whenever each row cell's text rendering reads back
as the same typed value — true of every non-numeric-looking string and,
up to the format's numeric precision, of every number), but the
`geoname_id` index entries come back re-parsed from their text: a
digit-string `geoname_id`, which is what `build` always produces,
returns as an integer. -/
theorem load_save_stats_df (t : StatsDF)
    (hlen : t.index.length = t.rows.length)
    (hcells : ∀ r ∈ t.rows, ∀ c ∈ r, parseCell (serializeCell c) = c) :
    load_processed_dataset (save_stats_df_for_downloaded_cities_graphs t) =
      some ⟨t.index.map (fun c => parseCell (serializeCell c)),
            t.columns, t.rows⟩ := by
  obtain ⟨h1, h2⟩ := parse_serialize_rows t.index t.rows hlen hcells
  simp only [load_processed_dataset,
    save_stats_df_for_downloaded_cities_graphs, if_pos rfl, h1, h2]
  simp

/-- C4 (counterexample): a build-shaped table whose `geoname_id` index
entry is the digit string `"42"` (as decoded from a cache filename) does
not survive the round trip: it loads back with the integer `42` in the
index. -/
theorem load_save_stats_df_not_identity :
    load_processed_dataset (save_stats_df_for_downloaded_cities_graphs
        ⟨[.str "42"], ["name", "country_code"],
         [[.str "Bucha", .str "UA"]]⟩) =
      some ⟨[.int 42], ["name", "country_code"],
            [[.str "Bucha", .str "UA"]]⟩ ∧
    load_processed_dataset (save_stats_df_for_downloaded_cities_graphs
        ⟨[.str "42"], ["name", "country_code"],
         [[.str "Bucha", .str "UA"]]⟩) ≠
      some ⟨[.str "42"], ["name", "country_code"],
            [[.str "Bucha", .str "UA"]]⟩ := by
  constructor <;> decide

/-- C4 (witness): the amended round trip evaluated on a table with an
integer index entry and a plain string cell. -/
theorem load_save_stats_df_witness :
    load_processed_dataset (save_stats_df_for_downloaded_cities_graphs
        ⟨[.int 7], ["name"], [[.str "X"]]⟩) =
      some ⟨[.int 7], ["name"], [[.str "X"]]⟩ :=
  load_save_stats_df ⟨[.int 7], ["name"], [[.str "X"]]⟩ rfl (by decide)
